import Mathlib

/-!
The rotel-server launcher: the daemonising `main` of `src/rotel-server.c`.

The program is one function, `main`, that talks to the operating system
through `fork`, `perror`, `umask`, `setsid`, `chdir` and `execl`.  The
embedding follows one process through `main`:

* the operating system's answers (the values the calls return in the process
  that is followed) are collected in `Env`;
* the process attributes the calls read and write (`Proc`) and the list of
  calls made so far, each with the process state it was made in (`Event`),
  are threaded through `main` as a `World`;
* `main` returns `some r` when the C function returns `r`, and `none` when
  `execl` replaced the process image, so that `main` never returns.

The effect of each call on `Proc` is the one POSIX documents for it.  The
values of `EXIT_SUCCESS` and `EXIT_FAILURE` are those of `<stdlib.h>`.
-/

namespace RotelServer

/-! ## The calls `main` can make -/

/-- The library and system calls that occur in `src/rotel-server.c`.
`close` occurs there only in three lines that are commented out. -/
inductive Call where
  | fork
  | perror (msg : String)
  | umask (mask : Nat)
  | setsid
  | chdir (path : String)
  | close (fd : Nat)
  | execl (path : String) (argv : List String)
  deriving DecidableEq, Repr

/-- The attributes of a process that the calls of `main` read or write.
`pid_t` values are integers; `ctty` is the controlling terminal, `mask` the
file-mode creation mask, `fds` the open file descriptors, `image` and `argv`
the program the process is running, `children` the processes it has forked. -/
structure Proc where
  pid : Int
  ppid : Int
  sid : Int
  pgid : Int
  ctty : Option String
  mask : Nat
  cwd : String
  fds : List Nat
  image : String
  argv : List String
  children : List Int
  deriving DecidableEq, Repr

/-- One call, with the state of the process at the moment it was made. -/
structure Event where
  call : Call
  pre : Proc
  deriving DecidableEq, Repr

/-- The process that is followed and the calls it has made so far. -/
structure World where
  proc : Proc
  trace : List Event
  deriving DecidableEq, Repr

/-- The answers of the operating system in the process that is followed:
the value `fork` returns there, the process id given to the child when the
followed process is the child, the values `setsid` and `chdir` return, and
for `execl` either `none` (the image was replaced, the call does not return)
or `some r` (the call failed and returned `r`; POSIX makes it `-1`). -/
structure Env where
  forkRet : Int
  childPid : Int
  setsidRet : Int
  chdirRet : Int
  execlRet : Option Int
  deriving DecidableEq, Repr

/-- The macro `EXIT_SUCCESS` of `<stdlib.h>`. -/
def EXIT_SUCCESS : Int := 0

/-- The macro `EXIT_FAILURE` of `<stdlib.h>`. -/
def EXIT_FAILURE : Int := 1

/-- The exit status a parent observes when `main` returns `r`: the low eight
bits of `r`. -/
def exitStatus (r : Int) : Nat := (r % 256).toNat

/-! ## The operating system -/

/-- Append a call to the trace, with the state it is made in. -/
def record (c : Call) (w : World) : World :=
  { w with trace := w.trace ++ [{ call := c, pre := w.proc }] }

/-- The call `fork()`.  A negative value: no child was created and the caller is
unchanged.  Zero: the followed process is the new child, a copy of the caller
with its own process id and the caller as parent.  A positive value: the
followed process is the caller, which has one more child. -/
def sysFork (ret childPid : Int) (w : World) : Int × World :=
  let w1 := record Call.fork w
  if ret < 0 then (ret, w1)
  else if ret = 0 then
    (ret, { w1 with proc := { w.proc with pid := childPid, ppid := w.proc.pid, children := [] } })
  else (ret, { w1 with proc := { w.proc with children := ret :: w.proc.children } })

/-- The call `perror(msg)`: writes a diagnostic to standard error; no attribute of
the process changes. -/
def sysPerror (msg : String) (w : World) : World :=
  record (Call.perror msg) w

/-- The call `umask(mask)`: sets the file-mode creation mask to the permission bits
of `mask` and returns the previous mask.  It cannot fail. -/
def sysUmask (mask : Nat) (w : World) : Int × World :=
  let w1 := record (Call.umask mask) w
  ((w.proc.mask : Int), { w1 with proc := { w.proc with mask := mask &&& 0o777 } })

/-- The call `setsid()`.  A negative value: failure, nothing changes.  Otherwise the
process is the leader of a new session and of a new process group, and has no
controlling terminal. -/
def sysSetsid (ret : Int) (w : World) : Int × World :=
  let w1 := record Call.setsid w
  if ret < 0 then (ret, w1)
  else
    (ret, { w1 with proc := { w.proc with sid := w.proc.pid, pgid := w.proc.pid, ctty := none } })

/-- The call `chdir(path)`.  Zero: the working directory is now `path`.  Any other
value: failure, nothing changes. -/
def sysChdir (ret : Int) (path : String) (w : World) : Int × World :=
  let w1 := record (Call.chdir path) w
  if ret = 0 then (ret, { w1 with proc := { w.proc with cwd := path } })
  else (ret, w1)

/-- The call `execl(path, arg0, ..., (char *) NULL)`.  `none`: the image of the
process is replaced by `path` run with the given arguments and the call does
not return.  `some r`: failure, the call returns `r` and nothing changes. -/
def sysExecl (ret : Option Int) (path : String) (argv : List String) (w : World) :
    Option Int × World :=
  let w1 := record (Call.execl path argv) w
  match ret with
  | none => (none, { w1 with proc := { w.proc with image := path, argv := argv } })
  | some r => (some r, w1)

/-! ## The program -/

/-- The function `main` of `src/rotel-server.c`.  The parameters `argc`, `argv` and the
local `fp` are never used by the C function.  The result is `some r` when
the C function returns `r` and `none` when `execl` does not return. -/
def main (env : Env) (w0 : World) : Option Int × World :=
  -- pid = fork();
  let (pid, w1) := sysFork env.forkRet env.childPid w0
  if pid < 0 then
    -- perror("fork"); return EXIT_FAILURE;
    let w2 := sysPerror "fork" w1
    (some EXIT_FAILURE, w2)
  else if pid ≠ 0 then
    -- return EXIT_SUCCESS;
    (some EXIT_SUCCESS, w1)
  else
    -- umask(0);
    let (_, w2) := sysUmask 0 w1
    -- sid = setsid();
    let (sid, w3) := sysSetsid env.setsidRet w2
    if sid < 0 then
      -- return EXIT_FAILURE;
      (some EXIT_FAILURE, w3)
    else
      -- chdir("/etc/rotel");
      let (_, w4) := sysChdir env.chdirRet "/etc/rotel" w3
      -- return execl("/usr/bin/ruby", "rotel-server", "/etc/rotel/rotel-server.rb", "--", "-d", (char *) NULL);
      sysExecl env.execlRet "/usr/bin/ruby"
        ["rotel-server", "/etc/rotel/rotel-server.rb", "--", "-d"] w4

/-- A run of the program by process `p`, starting with no call made. -/
def run (env : Env) (p : Proc) : Option Int × World :=
  main env { proc := p, trace := [] }

/-! ## Observations on a run -/

/-- The calls of a run, in the order they were made. -/
def calls (r : Option Int × World) : List Call :=
  r.2.trace.map Event.call

/-- Whether a call is an `execl`. -/
def Call.isExec : Call → Bool
  | Call.execl _ _ => true
  | _ => false

/-- Whether a call is one of `umask`, `setsid`, `chdir`, `execl`. -/
def Call.isDaemonStep : Call → Bool
  | Call.umask _ => true
  | Call.setsid => true
  | Call.chdir _ => true
  | Call.execl _ _ => true
  | _ => false

/-- Whether a call closes a file descriptor. -/
def Call.isClose : Call → Bool
  | Call.close _ => true
  | _ => false

/-- The states of the process at the moments `execl` was invoked. -/
def atExec (r : Option Int × World) : List Proc :=
  (r.2.trace.filter (fun e => e.call.isExec)).map Event.pre

/-- The state of the process immediately after `fork` has returned in it. -/
def afterFork (env : Env) (p : Proc) : Proc :=
  (sysFork env.forkRet env.childPid { proc := p, trace := [] }).2.proc

/-- How a run ends: the process terminates with an exit status, or its
image has been replaced by another program. -/
inductive Outcome where
  | exited (status : Nat)
  | replaced (image : String) (argv : List String)
  deriving DecidableEq, Repr

/-- The outcome of a run. -/
def outcome (r : Option Int × World) : Outcome :=
  match r.1 with
  | some v => Outcome.exited (exitStatus v)
  | none => Outcome.replaced r.2.proc.image r.2.proc.argv

/-- A sample calling process: a shell job on a terminal. -/
def sampleProc : Proc :=
  { pid := 100, ppid := 1, sid := 50, pgid := 100, ctty := some "/dev/pts/0", mask := 0o22,
    cwd := "/home/user", fds := [0, 1, 2], image := "/usr/sbin/rotel-server",
    argv := ["rotel-server"], children := [] }

/-- Answers of a system on which every call succeeds, seen in the child. -/
def childOk : Env :=
  { forkRet := 0, childPid := 101, setsidRet := 101, chdirRet := 0, execlRet := none }

/-! ## The four paths through `main` -/

/-- The child just after `fork`: the caller with a process id of its own. -/
def childOf (env : Env) (p : Proc) : Proc :=
  { p with pid := env.childPid, ppid := p.pid, children := [] }

/-- The child after `umask(0)`. -/
def childMasked (env : Env) (p : Proc) : Proc :=
  { childOf env p with mask := 0 }

/-- The child after a successful `setsid()`. -/
def childLeader (env : Env) (p : Proc) : Proc :=
  { childMasked env p with sid := env.childPid, pgid := env.childPid, ctty := none }

/-- The child after `chdir("/etc/rotel")` has returned. -/
def childMoved (env : Env) (p : Proc) : Proc :=
  if env.chdirRet = 0 then { childLeader env p with cwd := "/etc/rotel" } else childLeader env p

/-- The child once `execl` has replaced its image. -/
def childReplaced (env : Env) (p : Proc) : Proc :=
  { childMoved env p with
    image := "/usr/bin/ruby"
    argv := ["rotel-server", "/etc/rotel/rotel-server.rb", "--", "-d"] }

/-- The call with which `main` hands over to the interpreter. -/
def execCall : Call :=
  Call.execl "/usr/bin/ruby" ["rotel-server", "/etc/rotel/rotel-server.rb", "--", "-d"]

theorem run_fork_failed (env : Env) (p : Proc) (h : env.forkRet < 0) :
    run env p = (some EXIT_FAILURE,
      { proc := p, trace := [⟨Call.fork, p⟩, ⟨Call.perror "fork", p⟩] }) := by
  simp [run, main, sysFork, sysPerror, record, h]

theorem run_parent (env : Env) (p : Proc) (h : 0 < env.forkRet) :
    run env p = (some EXIT_SUCCESS,
      { proc := { p with children := env.forkRet :: p.children }, trace := [⟨Call.fork, p⟩] }) := by
  have h1 : ¬ env.forkRet < 0 := by omega
  have h2 : ¬ env.forkRet = 0 := by omega
  simp [run, main, sysFork, record, h1, h2]

theorem run_setsid_failed (env : Env) (p : Proc) (hf : env.forkRet = 0)
    (hs : env.setsidRet < 0) :
    run env p = (some EXIT_FAILURE,
      { proc := childMasked env p,
        trace := [⟨Call.fork, p⟩, ⟨Call.umask 0, childOf env p⟩,
          ⟨Call.setsid, childMasked env p⟩] }) := by
  simp [run, main, sysFork, sysUmask, sysSetsid, record, hf, hs, childOf, childMasked]

theorem run_exec (env : Env) (p : Proc) (hf : env.forkRet = 0) (hs : ¬ env.setsidRet < 0) :
    run env p =
      (env.execlRet,
        { proc :=
            (match env.execlRet with
              | none => childReplaced env p
              | some _ => childMoved env p),
          trace := [⟨Call.fork, p⟩, ⟨Call.umask 0, childOf env p⟩,
            ⟨Call.setsid, childMasked env p⟩, ⟨Call.chdir "/etc/rotel", childLeader env p⟩,
            ⟨execCall, childMoved env p⟩] }) := by
  cases hx : env.execlRet <;> by_cases hc : env.chdirRet = 0 <;>
    simp [run, main, sysFork, sysUmask, sysSetsid, sysChdir, sysExecl, record, hf, hs, hx, hc,
      childOf, childMasked, childLeader, childMoved, childReplaced, execCall]

theorem childMoved_fds (env : Env) (p : Proc) : (childMoved env p).fds = p.fds := by
  unfold childMoved childLeader childMasked childOf
  split <;> rfl

theorem childMoved_image (env : Env) (p : Proc) : (childMoved env p).image = p.image := by
  unfold childMoved childLeader childMasked childOf
  split <;> rfl

/-! ## The claims -/

/-- C1: in the child (`fork` returned 0), when `setsid` succeeds, the calls of
`main` are `fork`, `umask(0)`, `setsid()`, `chdir("/etc/rotel")`,
`execl("/usr/bin/ruby", ...)`, in this order, each once and nothing else; no
call closes a file descriptor, and at the moment `execl` is invoked the open
file descriptors are the ones the caller had. -/
theorem child_calls_in_order (env : Env) (p : Proc)
    (hfork : env.forkRet = 0) (hsid : ¬ env.setsidRet < 0) :
    calls (run env p) =
        [Call.fork, Call.umask 0, Call.setsid, Call.chdir "/etc/rotel",
          Call.execl "/usr/bin/ruby" ["rotel-server", "/etc/rotel/rotel-server.rb", "--", "-d"]]
      ∧ (∀ c ∈ calls (run env p), c.isClose = false)
      ∧ (atExec (run env p)).map Proc.fds = [p.fds] := by
  rw [run_exec env p hfork hsid]
  refine ⟨by simp [calls, execCall], ?_, ?_⟩
  · simp [calls, execCall, Call.isClose]
  · simp [atExec, execCall, Call.isExec, childMoved_fds]

/-- Witness of C1: the child of `sampleProc` on a system where every call succeeds. -/
theorem child_calls_in_order_witness :
    childOk.forkRet = 0 ∧ ¬ childOk.setsidRet < 0 ∧
    (calls (run childOk sampleProc) =
        [Call.fork, Call.umask 0, Call.setsid, Call.chdir "/etc/rotel",
          Call.execl "/usr/bin/ruby" ["rotel-server", "/etc/rotel/rotel-server.rb", "--", "-d"]]
      ∧ (∀ c ∈ calls (run childOk sampleProc), c.isClose = false)
      ∧ (atExec (run childOk sampleProc)).map Proc.fds = [sampleProc.fds]) :=
  ⟨by decide, by decide, child_calls_in_order childOk sampleProc (by decide) (by decide)⟩

/-- C2: when `fork` fails (returns a negative value), `main` returns
`EXIT_FAILURE`, so the caller terminates with the non-zero status 1; its only
calls are `fork` and `perror("fork")`, none of `umask`, `setsid`, `chdir`,
`execl`; and the state of the caller (mask, session, working directory, image,
children) is exactly what it was. -/
theorem fork_failure_exits_nonzero (env : Env) (p : Proc) (hfork : env.forkRet < 0) :
    (run env p).1 = some EXIT_FAILURE
      ∧ outcome (run env p) = Outcome.exited 1
      ∧ exitStatus EXIT_FAILURE ≠ 0
      ∧ calls (run env p) = [Call.fork, Call.perror "fork"]
      ∧ (∀ c ∈ calls (run env p), c.isDaemonStep = false)
      ∧ (run env p).2.proc = p := by
  rw [run_fork_failed env p hfork]
  refine ⟨rfl, rfl, by decide, by simp [calls], ?_, rfl⟩
  simp [calls, Call.isDaemonStep]

/-- Witness of C2: `fork` returns -1 in `sampleProc`. -/
theorem fork_failure_exits_nonzero_witness :
    ({ childOk with forkRet := -1 } : Env).forkRet < 0 ∧
    ((run { childOk with forkRet := -1 } sampleProc).1 = some EXIT_FAILURE
      ∧ outcome (run { childOk with forkRet := -1 } sampleProc) = Outcome.exited 1
      ∧ exitStatus EXIT_FAILURE ≠ 0
      ∧ calls (run { childOk with forkRet := -1 } sampleProc) = [Call.fork, Call.perror "fork"]
      ∧ (∀ c ∈ calls (run { childOk with forkRet := -1 } sampleProc), c.isDaemonStep = false)
      ∧ (run { childOk with forkRet := -1 } sampleProc).2.proc = sampleProc) :=
  ⟨by decide, fork_failure_exits_nonzero { childOk with forkRet := -1 } sampleProc (by decide)⟩

/-- C3: when `fork` returns a positive process id (the parent), `main` returns
`EXIT_SUCCESS` right after `fork`: the exit status is 0, `fork` is the only
call, the parent keeps its state and has one more child, and the status is 0
whatever `setsid`, `chdir` and `execl` answer in the child. -/
theorem parent_exits_success (env : Env) (p : Proc) (hfork : 0 < env.forkRet) :
    (run env p).1 = some EXIT_SUCCESS
      ∧ outcome (run env p) = Outcome.exited 0
      ∧ calls (run env p) = [Call.fork]
      ∧ (∀ c ∈ calls (run env p), c.isDaemonStep = false)
      ∧ (run env p).2.proc = { p with children := env.forkRet :: p.children }
      ∧ (∀ (s c : Int) (x : Option Int),
          outcome (run { env with setsidRet := s, chdirRet := c, execlRet := x } p)
            = Outcome.exited 0) := by
  refine ⟨?_, ?_, ?_, ?_, ?_, ?_⟩
  · rw [run_parent env p hfork]
  · rw [run_parent env p hfork]; rfl
  · rw [run_parent env p hfork]; simp [calls]
  · rw [run_parent env p hfork]; simp [calls, Call.isDaemonStep]
  · rw [run_parent env p hfork]
  · intro s c x
    have hpos : 0 < ({ env with setsidRet := s, chdirRet := c, execlRet := x } : Env).forkRet :=
      hfork
    rw [run_parent _ p hpos]
    rfl

/-- Witness of C3: `fork` returns the child's id 101 in `sampleProc`. -/
theorem parent_exits_success_witness :
    0 < ({ childOk with forkRet := 101 } : Env).forkRet ∧
    ((run { childOk with forkRet := 101 } sampleProc).1 = some EXIT_SUCCESS
      ∧ outcome (run { childOk with forkRet := 101 } sampleProc) = Outcome.exited 0
      ∧ calls (run { childOk with forkRet := 101 } sampleProc) = [Call.fork]
      ∧ (∀ c ∈ calls (run { childOk with forkRet := 101 } sampleProc), c.isDaemonStep = false)
      ∧ (run { childOk with forkRet := 101 } sampleProc).2.proc
          = { sampleProc with children := 101 :: sampleProc.children }
      ∧ (∀ (s c : Int) (x : Option Int),
          outcome (run { ({ childOk with forkRet := 101 } : Env) with
            setsidRet := s, chdirRet := c, execlRet := x } sampleProc) = Outcome.exited 0)) :=
  ⟨by decide, parent_exits_success { childOk with forkRet := 101 } sampleProc (by decide)⟩

/-- C4: in the child, when `setsid` fails (returns a negative value), `main`
returns `EXIT_FAILURE`, so the child terminates with the non-zero status 1;
`setsid` is called once and is the last call: no `chdir` and no `execl`
follows. -/
theorem setsid_failure_exits_nonzero (env : Env) (p : Proc)
    (hfork : env.forkRet = 0) (hsid : env.setsidRet < 0) :
    (run env p).1 = some EXIT_FAILURE
      ∧ outcome (run env p) = Outcome.exited 1
      ∧ exitStatus EXIT_FAILURE ≠ 0
      ∧ calls (run env p) = [Call.fork, Call.umask 0, Call.setsid]
      ∧ (calls (run env p)).count Call.setsid = 1
      ∧ (∀ path, Call.chdir path ∉ calls (run env p))
      ∧ (∀ c ∈ calls (run env p), c.isExec = false) := by
  rw [run_setsid_failed env p hfork hsid]
  refine ⟨rfl, rfl, by decide, by simp [calls], by simp [calls], by simp [calls], ?_⟩
  simp [calls, Call.isExec]

/-- Witness of C4: `setsid` returns -1 in the child of `sampleProc`. -/
theorem setsid_failure_exits_nonzero_witness :
    ({ childOk with setsidRet := -1 } : Env).forkRet = 0 ∧
    ({ childOk with setsidRet := -1 } : Env).setsidRet < 0 ∧
    ((run { childOk with setsidRet := -1 } sampleProc).1 = some EXIT_FAILURE
      ∧ outcome (run { childOk with setsidRet := -1 } sampleProc) = Outcome.exited 1
      ∧ exitStatus EXIT_FAILURE ≠ 0
      ∧ calls (run { childOk with setsidRet := -1 } sampleProc)
          = [Call.fork, Call.umask 0, Call.setsid]
      ∧ (calls (run { childOk with setsidRet := -1 } sampleProc)).count Call.setsid = 1
      ∧ (∀ path, Call.chdir path ∉ calls (run { childOk with setsidRet := -1 } sampleProc))
      ∧ (∀ c ∈ calls (run { childOk with setsidRet := -1 } sampleProc), c.isExec = false)) :=
  ⟨by decide, by decide,
    setsid_failure_exits_nonzero { childOk with setsidRet := -1 } sampleProc
      (by decide) (by decide)⟩

/-- C5: in the child, when `setsid` succeeds and `execl` fails (returns -1),
`main` returns the value of `execl`, -1, so the process terminates with exit
status 255, which is not 0; `execl` is the last call, and the process ends in
the state in which it invoked `execl`, still running the launcher image. -/
theorem exec_failure_exits_nonzero (env : Env) (p : Proc)
    (hfork : env.forkRet = 0) (hsid : ¬ env.setsidRet < 0) (hexec : env.execlRet = some (-1)) :
    (run env p).1 = env.execlRet
      ∧ (run env p).1 = some (-1)
      ∧ outcome (run env p) = Outcome.exited 255
      ∧ outcome (run env p) ≠ Outcome.exited 0
      ∧ (calls (run env p)).getLast? = some (Call.execl "/usr/bin/ruby"
          ["rotel-server", "/etc/rotel/rotel-server.rb", "--", "-d"])
      ∧ atExec (run env p) = [(run env p).2.proc]
      ∧ (run env p).2.proc.image = p.image := by
  rw [run_exec env p hfork hsid, hexec]
  refine ⟨rfl, rfl, rfl, ?_, by simp [calls, execCall], ?_, ?_⟩
  · intro h
    have h255 : (255 : Nat) = 0 := Outcome.exited.inj h
    exact absurd h255 (by decide)
  · simp [atExec, execCall, Call.isExec]
  · exact childMoved_image env p

/-- Witness of C5: `execl` returns -1 in the child of `sampleProc`. -/
theorem exec_failure_exits_nonzero_witness :
    ({ childOk with execlRet := some (-1) } : Env).forkRet = 0 ∧
    ¬ ({ childOk with execlRet := some (-1) } : Env).setsidRet < 0 ∧
    ({ childOk with execlRet := some (-1) } : Env).execlRet = some (-1) ∧
    ((run { childOk with execlRet := some (-1) } sampleProc).1
          = ({ childOk with execlRet := some (-1) } : Env).execlRet
      ∧ (run { childOk with execlRet := some (-1) } sampleProc).1 = some (-1)
      ∧ outcome (run { childOk with execlRet := some (-1) } sampleProc) = Outcome.exited 255
      ∧ outcome (run { childOk with execlRet := some (-1) } sampleProc) ≠ Outcome.exited 0
      ∧ (calls (run { childOk with execlRet := some (-1) } sampleProc)).getLast?
          = some (Call.execl "/usr/bin/ruby"
              ["rotel-server", "/etc/rotel/rotel-server.rb", "--", "-d"])
      ∧ atExec (run { childOk with execlRet := some (-1) } sampleProc)
          = [(run { childOk with execlRet := some (-1) } sampleProc).2.proc]
      ∧ (run { childOk with execlRet := some (-1) } sampleProc).2.proc.image
          = sampleProc.image) :=
  ⟨by decide, by decide, by decide,
    exec_failure_exits_nonzero { childOk with execlRet := some (-1) } sampleProc
      (by decide) (by decide) (by decide)⟩

/-- C6: in the child, when `setsid` succeeds, the value `chdir` returns makes
no difference: for any two values, `execl` is invoked, once, with the path
`/usr/bin/ruby` and the same argument list, the calls are the same, `main`
returns the same, and the outcome of the run (image replaced, or the exit
status after a failed `execl`) is the same. -/
theorem chdir_result_ignored (env : Env) (p : Proc)
    (hfork : env.forkRet = 0) (hsid : ¬ env.setsidRet < 0) (c1 c2 : Int) :
    (calls (run { env with chdirRet := c1 } p)).filter Call.isExec
        = [Call.execl "/usr/bin/ruby" ["rotel-server", "/etc/rotel/rotel-server.rb", "--", "-d"]]
      ∧ (calls (run { env with chdirRet := c2 } p)).filter Call.isExec
        = [Call.execl "/usr/bin/ruby" ["rotel-server", "/etc/rotel/rotel-server.rb", "--", "-d"]]
      ∧ calls (run { env with chdirRet := c1 } p) = calls (run { env with chdirRet := c2 } p)
      ∧ (run { env with chdirRet := c1 } p).1 = (run { env with chdirRet := c2 } p).1
      ∧ outcome (run { env with chdirRet := c1 } p)
        = outcome (run { env with chdirRet := c2 } p) := by
  have h1 := run_exec { env with chdirRet := c1 } p hfork hsid
  have h2 := run_exec { env with chdirRet := c2 } p hfork hsid
  rw [h1, h2]
  refine ⟨by simp [calls, execCall, Call.isExec], by simp [calls, execCall, Call.isExec],
    by simp [calls], rfl, ?_⟩
  cases hx : env.execlRet with
  | none => simp [outcome, hx, childReplaced]
  | some r => simp [outcome, hx]

/-- Witness of C6: `chdir` succeeding (0) and failing (-1) in the child of `sampleProc`. -/
theorem chdir_result_ignored_witness :
    childOk.forkRet = 0 ∧ ¬ childOk.setsidRet < 0 ∧
    ((calls (run { childOk with chdirRet := 0 } sampleProc)).filter Call.isExec
        = [Call.execl "/usr/bin/ruby" ["rotel-server", "/etc/rotel/rotel-server.rb", "--", "-d"]]
      ∧ (calls (run { childOk with chdirRet := -1 } sampleProc)).filter Call.isExec
        = [Call.execl "/usr/bin/ruby" ["rotel-server", "/etc/rotel/rotel-server.rb", "--", "-d"]]
      ∧ calls (run { childOk with chdirRet := 0 } sampleProc)
        = calls (run { childOk with chdirRet := -1 } sampleProc)
      ∧ (run { childOk with chdirRet := 0 } sampleProc).1
        = (run { childOk with chdirRet := -1 } sampleProc).1
      ∧ outcome (run { childOk with chdirRet := 0 } sampleProc)
        = outcome (run { childOk with chdirRet := -1 } sampleProc)) :=
  ⟨by decide, by decide, chdir_result_ignored childOk sampleProc (by decide) (by decide) 0 (-1)⟩

/-- C7: whenever `execl` is invoked in a run, its path is `/usr/bin/ruby` and
its argument vector is `rotel-server`, `/etc/rotel/rotel-server.rb`, `--`,
`-d`, in this order. -/
theorem exec_arguments (env : Env) (p : Proc) (path : String) (argv : List String)
    (h : Call.execl path argv ∈ calls (run env p)) :
    path = "/usr/bin/ruby"
      ∧ argv = ["rotel-server", "/etc/rotel/rotel-server.rb", "--", "-d"] := by
  rcases lt_trichotomy env.forkRet 0 with hf | hf | hf
  · rw [run_fork_failed env p hf] at h
    simp [calls] at h
  · by_cases hs : env.setsidRet < 0
    · rw [run_setsid_failed env p hf hs] at h
      simp [calls] at h
    · rw [run_exec env p hf hs] at h
      simpa [calls, execCall] using h
  · rw [run_parent env p hf] at h
    simp [calls] at h

/-- Witness of C7: the `execl` call of the child of `sampleProc`. -/
theorem exec_arguments_witness :
    Call.execl "/usr/bin/ruby" ["rotel-server", "/etc/rotel/rotel-server.rb", "--", "-d"]
        ∈ calls (run childOk sampleProc) ∧
    ("/usr/bin/ruby" = "/usr/bin/ruby"
      ∧ ["rotel-server", "/etc/rotel/rotel-server.rb", "--", "-d"]
          = ["rotel-server", "/etc/rotel/rotel-server.rb", "--", "-d"]) :=
  ⟨by decide,
    exec_arguments childOk sampleProc "/usr/bin/ruby"
      ["rotel-server", "/etc/rotel/rotel-server.rb", "--", "-d"] (by decide)⟩

/-- C8: in every run, a state `q` in which `execl` is invoked has file-creation
mask 0, is the leader of its session and of its process group, has no
controlling terminal, and has the process id the process had immediately
after `fork`; and `execl` is invoked only in the child and only when `setsid`
has succeeded. -/
theorem state_at_exec (env : Env) (p q : Proc) (h : q ∈ atExec (run env p)) :
    q.mask = 0
      ∧ q.sid = q.pid
      ∧ q.pgid = q.pid
      ∧ q.ctty = none
      ∧ q.pid = (afterFork env p).pid
      ∧ env.forkRet = 0
      ∧ ¬ env.setsidRet < 0 := by
  rcases lt_trichotomy env.forkRet 0 with hf | hf | hf
  · rw [run_fork_failed env p hf] at h
    simp [atExec, Call.isExec] at h
  · by_cases hs : env.setsidRet < 0
    · rw [run_setsid_failed env p hf hs] at h
      simp [atExec, Call.isExec] at h
    · rw [run_exec env p hf hs] at h
      have hq : q = childMoved env p := by
        simpa [atExec, execCall, Call.isExec] using h
      subst hq
      refine ⟨?_, ?_, ?_, ?_, ?_, hf, hs⟩ <;>
        (unfold childMoved childLeader childMasked childOf; split) <;>
        simp [afterFork, sysFork, record, hf]
  · rw [run_parent env p hf] at h
    simp [atExec, Call.isExec] at h

/-- Witness of C8: the state in which the child of `sampleProc` invokes `execl`. -/
theorem state_at_exec_witness :
    childMoved childOk sampleProc ∈ atExec (run childOk sampleProc) ∧
    ((childMoved childOk sampleProc).mask = 0
      ∧ (childMoved childOk sampleProc).sid = (childMoved childOk sampleProc).pid
      ∧ (childMoved childOk sampleProc).pgid = (childMoved childOk sampleProc).pid
      ∧ (childMoved childOk sampleProc).ctty = none
      ∧ (childMoved childOk sampleProc).pid = (afterFork childOk sampleProc).pid
      ∧ childOk.forkRet = 0
      ∧ ¬ childOk.setsidRet < 0) :=
  ⟨by decide,
    state_at_exec childOk sampleProc (childMoved childOk sampleProc) (by decide)⟩

/-- C9: in the child, when `setsid` succeeds and `chdir` succeeds (returns 0),
`execl` is invoked once, in a state whose working directory is `/etc/rotel`,
whatever the working directory of the caller was. -/
theorem cwd_at_exec (env : Env) (p : Proc)
    (hfork : env.forkRet = 0) (hsid : ¬ env.setsidRet < 0) (hcd : env.chdirRet = 0) :
    (atExec (run env p)).map Proc.cwd = ["/etc/rotel"] := by
  rw [run_exec env p hfork hsid]
  simp [atExec, execCall, Call.isExec, childMoved, hcd]

/-- Witness of C9: the child of `sampleProc`, whose caller was in `/home/user`. -/
theorem cwd_at_exec_witness :
    childOk.forkRet = 0 ∧ ¬ childOk.setsidRet < 0 ∧ childOk.chdirRet = 0 ∧
    sampleProc.cwd = "/home/user" ∧
    (atExec (run childOk sampleProc)).map Proc.cwd = ["/etc/rotel"] :=
  ⟨by decide, by decide, by decide, by decide,
    cwd_at_exec childOk sampleProc (by decide) (by decide) (by decide)⟩

/-- C10: the exit status of a child whose `setsid` failed is 1; it differs from
0 and from the exit status 255 of a child whose `execl` failed (returned -1).
Among the child runs in which `execl` either replaces the image or returns -1,
the run ends with exit status 1 exactly when `setsid` failed. -/
theorem setsid_failure_status_distinct (e1 e2 : Env) (p1 p2 : Proc)
    (hfork1 : e1.forkRet = 0) (hsid1 : e1.setsidRet < 0)
    (hfork2 : e2.forkRet = 0) (hsid2 : ¬ e2.setsidRet < 0) (hexec2 : e2.execlRet = some (-1)) :
    outcome (run e1 p1) = Outcome.exited 1
      ∧ outcome (run e2 p2) = Outcome.exited 255
      ∧ outcome (run e1 p1) ≠ Outcome.exited 0
      ∧ outcome (run e1 p1) ≠ outcome (run e2 p2)
      ∧ (∀ (env : Env) (p : Proc), env.forkRet = 0 →
          (env.execlRet = none ∨ env.execlRet = some (-1)) →
          (outcome (run env p) = Outcome.exited 1 ↔ env.setsidRet < 0)) := by
  have o1 : outcome (run e1 p1) = Outcome.exited 1 := by
    rw [run_setsid_failed e1 p1 hfork1 hsid1]; rfl
  have o2 : outcome (run e2 p2) = Outcome.exited 255 := by
    rw [run_exec e2 p2 hfork2 hsid2, hexec2]; rfl
  refine ⟨o1, o2, ?_, ?_, ?_⟩
  · rw [o1]; intro h
    exact absurd (Outcome.exited.inj h) (by decide)
  · rw [o1, o2]; intro h
    exact absurd (Outcome.exited.inj h) (by decide)
  · intro env p hf hx
    constructor
    · intro ho
      by_contra hs
      rw [run_exec env p hf hs] at ho
      rcases hx with hx | hx
      · rw [hx] at ho; simp [outcome] at ho
      · rw [hx] at ho
        have h255 : exitStatus (-1) = 1 := by simpa [outcome] using ho
        exact absurd h255 (by decide)
    · intro hs
      rw [run_setsid_failed env p hf hs]; rfl

/-- Witness of C10: `setsid` failing in one child of `sampleProc`, `execl` failing in another. -/
theorem setsid_failure_status_distinct_witness :
    ({ childOk with setsidRet := -1 } : Env).forkRet = 0 ∧
    ({ childOk with setsidRet := -1 } : Env).setsidRet < 0 ∧
    ({ childOk with execlRet := some (-1) } : Env).forkRet = 0 ∧
    ¬ ({ childOk with execlRet := some (-1) } : Env).setsidRet < 0 ∧
    ({ childOk with execlRet := some (-1) } : Env).execlRet = some (-1) ∧
    (outcome (run { childOk with setsidRet := -1 } sampleProc) = Outcome.exited 1
      ∧ outcome (run { childOk with execlRet := some (-1) } sampleProc) = Outcome.exited 255
      ∧ outcome (run { childOk with setsidRet := -1 } sampleProc) ≠ Outcome.exited 0
      ∧ outcome (run { childOk with setsidRet := -1 } sampleProc)
          ≠ outcome (run { childOk with execlRet := some (-1) } sampleProc)
      ∧ (∀ (env : Env) (p : Proc), env.forkRet = 0 →
          (env.execlRet = none ∨ env.execlRet = some (-1)) →
          (outcome (run env p) = Outcome.exited 1 ↔ env.setsidRet < 0))) :=
  ⟨by decide, by decide, by decide, by decide, by decide,
    setsid_failure_status_distinct { childOk with setsidRet := -1 }
      { childOk with execlRet := some (-1) } sampleProc sampleProc
      (by decide) (by decide) (by decide) (by decide) (by decide)⟩

end RotelServer
